import Mathlib

/-!
Shallow embedding of the bucket-provisioning core of the repository
(`backend/controllers/bucketController.js`, `backend/routes/bucketRoutes.js`,
`backend/helpers/minio-admin.js`).

The external collaborators (MinIO storage backend, Prisma-backed registry
and user table) are modelled as explicit state (`SysState`); the outcome of
each remote call that can fail is prescribed by an oracle of Booleans, and
every remote call the controller issues is recorded in a trace.
-/

set_option autoImplicit false

/-- A row of the Prisma `User` model (only the fields the bucket
controller reads: `id` and `minioAccessKey`). -/
structure User where
  id : String
  minioAccessKey : String
deriving DecidableEq

/-- A row of the Prisma `Bucket` model (the fields the controller
reads and writes: unique `name` and owning `userId`). -/
structure BucketRecord where
  name : String
  userId : String
deriving DecidableEq

/-- One statement of the bucket policy object built in `createBucket`
(`Effect`, `Principal.AWS`, `Action`, `Resource`). -/
structure PolicyStatement where
  effect : String
  principalAWS : List String
  action : List String
  resource : List String
deriving DecidableEq

/-- The policy document built in `createBucket` (`Version`, `Statement`). -/
structure Policy where
  version : String
  statement : List PolicyStatement
deriving DecidableEq

/-- The policy document `createBucket` builds for a freshly created bucket:
allow only the owner's access key the four object/bucket actions on the
bucket's two ARNs (bucketController.js lines 95-113). -/
def bucketPolicy (accessKey name : String) : Policy :=
  ⟨"2012-10-17",
   [⟨"Allow",
     [accessKey],
     ["s3:GetObject", "s3:PutObject", "s3:DeleteObject", "s3:ListBucket"],
     ["arn:aws:s3:::" ++ name, "arn:aws:s3:::" ++ name ++ "/*"]⟩]⟩

/-- Combined external state: the storage backend's buckets, the policies
set on them, and the relational registry of bucket records. -/
structure SysState where
  storage : List String
  policies : List (String × Policy)
  registry : List BucketRecord
deriving DecidableEq

/-- Model of `prisma.bucket.findUnique(\x7b where: \x7b name \x7d \x7d)`. -/
def findByName (name : String) (reg : List BucketRecord) : Option BucketRecord :=
  reg.find? (fun r => r.name == name)

/-- Model of `prisma.user.findUnique(\x7b where: \x7b id \x7d \x7d)`. -/
def findUser (id : String) (users : List User) : Option User :=
  users.find? (fun u => u.id == id)

/-- Effect of a successful `makeBucket(name, region)` on the backend. -/
def stMakeBucket (name : String) (s : SysState) : SysState :=
  ⟨name :: s.storage, s.policies, s.registry⟩

/-- Effect of a successful `removeBucket(name)`: the bucket and its
policy are gone from the backend. -/
def stRemoveBucket (name : String) (s : SysState) : SysState :=
  ⟨s.storage.filter (fun b => !(b == name)),
   s.policies.filter (fun q => !(q.fst == name)),
   s.registry⟩

/-- Effect of a successful `setBucketPolicy(name, policy)`. -/
def stSetPolicy (name : String) (p : Policy) (s : SysState) : SysState :=
  ⟨s.storage, (name, p) :: s.policies.filter (fun q => !(q.fst == name)), s.registry⟩

/-- Effect of a successful `prisma.bucket.create`. -/
def stInsert (r : BucketRecord) (s : SysState) : SysState :=
  ⟨s.storage, s.policies, r :: s.registry⟩

/-- Effect of a successful `prisma.bucket.delete({ where: { name } })`. -/
def stDeleteByName (name : String) (s : SysState) : SysState :=
  ⟨s.storage, s.policies, s.registry.filter (fun r => !(r.name == name))⟩

/-- The storage backend's `bucketExists(name)` check. -/
def bucketExists (name : String) (s : SysState) : Bool :=
  s.storage.contains name

/-- The storage backend's `getBucketPolicy(name)`: the policy set on the
bucket, if any. -/
def getPolicySt (name : String) (s : SysState) : Option Policy :=
  (s.policies.find? (fun q => q.fst == name)).map Prod.snd

/-- The remote calls the controller can issue, for call traces. -/
inductive RemoteCall where
  | registryFindByName (name : String)
  | identityFindUser (id : String)
  | storageMakeBucket (name : String)
  | storageSetPolicy (name : String)
  | storageRemoveBucket (name : String)
  | registryInsert (name userId : String)
  | registryDeleteByName (name : String)
  | storageGetPolicy (name : String)
deriving DecidableEq

/-- Error responses of `createBucket`, one per early-return site. -/
inductive CreateErr where
  | ValidationError
  | NameConflict
  | UserNotFound
  | StorageCreateFailed
  | PolicySetFailed
  | RegistrationFailed
deriving DecidableEq

/-- Result of `createBucket`: the 201 payload or an error response. -/
inductive CreateRes where
  | ok (r : BucketRecord)
  | err (e : CreateErr)
deriving DecidableEq

/-- Error responses of `deleteBucket`, one per early-return site. -/
inductive DeleteErr where
  | ValidationError
  | NotFoundOrNotOwned
  | StorageDeleteFailed
  | RegistrationDeleteFailed
deriving DecidableEq

/-- Result of `deleteBucket`. -/
inductive DeleteRes where
  | ok
  | err (e : DeleteErr)
deriving DecidableEq

/-- Error responses of `getBucketPolicy`. -/
inductive PolicyErr where
  | NameRequired
  | PolicyNotFound
deriving DecidableEq

/-- Result of `getBucketPolicy`. -/
inductive PolicyRes where
  | ok (p : Policy)
  | err (e : PolicyErr)
deriving DecidableEq

/-- Prescribed outcomes of the fallible remote calls one `createBucket`
invocation can make: bucket creation, set-policy, the compensating
bucket removal (at most one of the two compensation sites runs per
invocation), and the registry insert. -/
structure CreateOracle where
  makeBucketOk : Bool
  setPolicyOk : Bool
  removeCompOk : Bool
  insertOk : Bool
deriving DecidableEq

/-- Prescribed outcomes of the fallible remote calls of `deleteBucket`. -/
structure DeleteOracle where
  removeBucketOk : Bool
  dbDeleteOk : Bool
deriving DecidableEq

/-- Character class `[a-z0-9]` of the validation regex. -/
def isLowerAlnum (c : Char) : Bool :=
  (('a' ≤ c) && (c ≤ 'z')) || (('0' ≤ c) && (c ≤ '9'))

/-- Matcher for `[a-z0-9-]*[a-z0-9]$`, the rest of the validation regex
after its first character. -/
def nameTail : List Char → Bool
  | [] => false
  | [c] => isLowerAlnum c
  | c :: rest => (isLowerAlnum c || c == '-') && nameTail rest

/-- Matcher for the whole validation regex `/^[a-z0-9][a-z0-9-]*[a-z0-9]$/`
(bucketController.js line 247). -/
def nameRegexL (l : List Char) : Bool :=
  match l with
  | [] => false
  | c :: rest => isLowerAlnum c && nameTail rest

/-- JavaScript `String.prototype.trim` (the express-validator `trim()`
sanitizer): strip leading and trailing whitespace. -/
def jsTrimL (l : List Char) : List Char :=
  ((l.dropWhile Char.isWhitespace).reverse.dropWhile Char.isWhitespace).reverse

/-- Sanitizer `trim()` at the level of strings. -/
def jsTrim (s : String) : String :=
  String.mk (jsTrimL s.data)

/-- The validator chain `isLength({ min: 3, max: 63 })` plus the regex
`matches`, applied to an already-trimmed character list. -/
def validNameChars (l : List Char) : Bool :=
  ((3 ≤ l.length) && (l.length ≤ 63)) && nameRegexL l

/-- Rules of `getValidationRules()` for the create route
(`body('name').isString().trim().isLength({min:3,max:63}).matches(...)`):
the `trim()` sanitizer rewrites the value first, then the length and
regex validators run on the trimmed value. -/
def createValidationPasses (raw : String) : Bool :=
  validNameChars (jsTrimL raw.data)

/-- Rules of `getDeleteBucketValidationRules()` (bucketController.js lines 253-259):
textually the same rule chain as the create rules. Exported by the
controller but never attached to the DELETE route (bucketRoutes.js
line 11). -/
def deleteValidationPasses (raw : String) : Bool :=
  validNameChars (jsTrimL raw.data)

/-- Outcome of one `createBucket` request: HTTP-level result, the
external state afterwards, and the remote calls issued in order. -/
structure CreateOutcome where
  result : CreateRes
  state : SysState
  trace : List RemoteCall
deriving DecidableEq

/-- Outcome of one `deleteBucket` request. -/
structure DeleteOutcome where
  result : DeleteRes
  state : SysState
  trace : List RemoteCall
deriving DecidableEq

/-- Outcome of one `getBucketPolicy` request (it never mutates state). -/
structure PolicyOutcome where
  result : PolicyRes
  trace : List RemoteCall
deriving DecidableEq

/-- Handler `createBucket` (bucketController.js lines 44-161) as wired on
`POST /` (bucketRoutes.js line 10, which attaches `getValidationRules()`):

1. validation errors → 400;
2. `prisma.bucket.findUnique` on the (trimmed) name → 409 name conflict;
3. `prisma.user.findUnique` on the caller → 404 user not found;
4. `makeBucket` → 500 storage create failed;
5. `setBucketPolicy` of `bucketPolicy` → on failure, best-effort
   `removeBucket` compensation with its own error swallowed, then 500;
6. `prisma.bucket.create` → on failure, the same best-effort
   compensation, then 500;
7. otherwise 201 with the inserted record. -/
def createBucket (users : List User) (userId : String) (rawName : String)
    (o : CreateOracle) (s : SysState) : CreateOutcome :=
  if createValidationPasses rawName then
    let name := jsTrim rawName
    match findByName name s.registry with
    | some _ =>
      ⟨CreateRes.err CreateErr.NameConflict, s, [RemoteCall.registryFindByName name]⟩
    | none =>
      match findUser userId users with
      | none =>
        ⟨CreateRes.err CreateErr.UserNotFound, s,
         [RemoteCall.registryFindByName name, RemoteCall.identityFindUser userId]⟩
      | some user =>
        if o.makeBucketOk then
          let s1 := stMakeBucket name s
          if o.setPolicyOk then
            let s2 := stSetPolicy name (bucketPolicy user.minioAccessKey name) s1
            if o.insertOk then
              let record : BucketRecord := ⟨name, userId⟩
              ⟨CreateRes.ok record, stInsert record s2,
               [RemoteCall.registryFindByName name, RemoteCall.identityFindUser userId,
                RemoteCall.storageMakeBucket name, RemoteCall.storageSetPolicy name,
                RemoteCall.registryInsert name userId]⟩
            else
              let s3 := if o.removeCompOk then stRemoveBucket name s2 else s2
              ⟨CreateRes.err CreateErr.RegistrationFailed, s3,
               [RemoteCall.registryFindByName name, RemoteCall.identityFindUser userId,
                RemoteCall.storageMakeBucket name, RemoteCall.storageSetPolicy name,
                RemoteCall.registryInsert name userId, RemoteCall.storageRemoveBucket name]⟩
          else
            let s2 := if o.removeCompOk then stRemoveBucket name s1 else s1
            ⟨CreateRes.err CreateErr.PolicySetFailed, s2,
             [RemoteCall.registryFindByName name, RemoteCall.identityFindUser userId,
              RemoteCall.storageMakeBucket name, RemoteCall.storageSetPolicy name,
              RemoteCall.storageRemoveBucket name]⟩
        else
          ⟨CreateRes.err CreateErr.StorageCreateFailed, s,
           [RemoteCall.registryFindByName name, RemoteCall.identityFindUser userId,
            RemoteCall.storageMakeBucket name]⟩
  else
    ⟨CreateRes.err CreateErr.ValidationError, s, []⟩

/-- The `deleteBucket` controller body (bucketController.js lines
164-222), parameterised by whether `validationResult(req)` reported
errors (it collects errors only from validators attached to the route):

1. validation errors → 400;
2. `prisma.bucket.findUnique`; missing record or foreign owner → a
   single 404 "Bucket not found or not owned by user";
3. `removeBucket` → 500 storage delete failed, registry untouched;
4. `prisma.bucket.delete` → 500 registry delete failed;
5. otherwise success. -/
def deleteBucketCtrl (hasValidationErrors : Bool) (userId name : String)
    (o : DeleteOracle) (s : SysState) : DeleteOutcome :=
  if hasValidationErrors then
    ⟨DeleteRes.err DeleteErr.ValidationError, s, []⟩
  else
    match findByName name s.registry with
    | none =>
      ⟨DeleteRes.err DeleteErr.NotFoundOrNotOwned, s, [RemoteCall.registryFindByName name]⟩
    | some b =>
      if b.userId == userId then
        if o.removeBucketOk then
          let s1 := stRemoveBucket name s
          if o.dbDeleteOk then
            ⟨DeleteRes.ok, stDeleteByName name s1,
             [RemoteCall.registryFindByName name, RemoteCall.storageRemoveBucket name,
              RemoteCall.registryDeleteByName name]⟩
          else
            ⟨DeleteRes.err DeleteErr.RegistrationDeleteFailed, s1,
             [RemoteCall.registryFindByName name, RemoteCall.storageRemoveBucket name,
              RemoteCall.registryDeleteByName name]⟩
        else
          ⟨DeleteRes.err DeleteErr.StorageDeleteFailed, s,
           [RemoteCall.registryFindByName name, RemoteCall.storageRemoveBucket name]⟩
      else
        ⟨DeleteRes.err DeleteErr.NotFoundOrNotOwned, s, [RemoteCall.registryFindByName name]⟩

/-- Route `DELETE /` as wired in bucketRoutes.js line 11:
`router.delete('/', authMiddleware, deleteBucket)` attaches no validation
rules, so `validationResult(req)` is always empty and the controller
runs with no validation errors, whatever the submitted name. -/
def deleteBucketRoute (userId name : String) (o : DeleteOracle) (s : SysState) :
    DeleteOutcome :=
  deleteBucketCtrl false userId name o s

/-- Handler `getBucketPolicy` (bucketController.js lines 225-241) as wired on
`GET /:name/policy` (bucketRoutes.js line 13; only `authMiddleware` is
attached). The handler reads only `req.params.name`: it takes no
requesting-user input and consults neither the registry nor ownership.
An empty name → 400; backend reports no policy → 404; otherwise the
policy document is returned. -/
def getBucketPolicy (name : String) (s : SysState) : PolicyOutcome :=
  if name == "" then
    ⟨PolicyRes.err PolicyErr.NameRequired, []⟩
  else
    match getPolicySt name s with
    | none => ⟨PolicyRes.err PolicyErr.PolicyNotFound, [RemoteCall.storageGetPolicy name]⟩
    | some p => ⟨PolicyRes.ok p, [RemoteCall.storageGetPolicy name]⟩

lemma contains_filter_beq_self (name : String) (l : List String) :
    (l.filter (fun b => !(b == name))).contains name = false := by
  induction l with
  | nil => rfl
  | cons a t ih =>
    by_cases h : a = name
    · simp_all [List.filter_cons]
    · simp_all [List.filter_cons]
      exact fun hn => h hn.symm

lemma find?_filter_name (name : String) (l : List BucketRecord) :
    (l.filter (fun r => !(r.name == name))).find? (fun r => r.name == name) = none := by
  induction l with
  | nil => rfl
  | cons a t ih =>
    by_cases h : a.name = name <;> simp_all [List.filter_cons, List.find?_cons]

/-- C4: a delete request whose name has no registry record, or whose
record is owned by another user, fails with the single error
`NotFoundOrNotOwned` — the very same outcome (result, state and trace)
in both cases — and mutates neither storage nor registry. -/
theorem deleteBucket_notFoundOrNotOwned (userId name : String) (o : DeleteOracle)
    (s : SysState)
    (h : findByName name s.registry = none ∨
         ∃ b, findByName name s.registry = some b ∧ ¬(b.userId = userId)) :
    deleteBucketRoute userId name o s =
      ⟨DeleteRes.err DeleteErr.NotFoundOrNotOwned, s, [RemoteCall.registryFindByName name]⟩ := by
  unfold deleteBucketRoute deleteBucketCtrl
  rcases h with h | ⟨b, hb, hne⟩
  · simp [h]
  · simp [hb, hne]

/-- Witness for C4 at a concrete input: an empty registry. -/
theorem deleteBucket_notFoundOrNotOwned_witness :
    deleteBucketRoute "u2" "alpha-data" ⟨true, true⟩ ⟨[], [], []⟩ =
      ⟨DeleteRes.err DeleteErr.NotFoundOrNotOwned, ⟨[], [], []⟩,
       [RemoteCall.registryFindByName "alpha-data"]⟩ :=
  deleteBucket_notFoundOrNotOwned "u2" "alpha-data" ⟨true, true⟩ ⟨[], [], []⟩
    (Or.inl (by decide))

/-- C6: when the ownership precondition holds but the storage-backend
bucket deletion fails, delete fails with `StorageDeleteFailed`, the
whole external state (in particular the registry record) is unchanged,
and the registry delete is never attempted. -/
theorem deleteBucket_storageDeleteFailed (userId name : String) (dl : Bool)
    (s : SysState) (b : BucketRecord)
    (hfind : findByName name s.registry = some b) (hown : b.userId = userId) :
    deleteBucketRoute userId name ⟨false, dl⟩ s =
      ⟨DeleteRes.err DeleteErr.StorageDeleteFailed, s,
       [RemoteCall.registryFindByName name, RemoteCall.storageRemoveBucket name]⟩ ∧
    RemoteCall.registryDeleteByName name ∉
      (deleteBucketRoute userId name ⟨false, dl⟩ s).trace := by
  unfold deleteBucketRoute deleteBucketCtrl
  simp [hfind, hown]

/-- Witness for C6 at a concrete input. -/
theorem deleteBucket_storageDeleteFailed_witness :
    deleteBucketRoute "u1" "alpha-data" ⟨false, true⟩ ⟨["alpha-data"], [], [⟨"alpha-data", "u1"⟩]⟩ =
      ⟨DeleteRes.err DeleteErr.StorageDeleteFailed, ⟨["alpha-data"], [], [⟨"alpha-data", "u1"⟩]⟩,
       [RemoteCall.registryFindByName "alpha-data", RemoteCall.storageRemoveBucket "alpha-data"]⟩ :=
  (deleteBucket_storageDeleteFailed "u1" "alpha-data" true
    ⟨["alpha-data"], [], [⟨"alpha-data", "u1"⟩]⟩ ⟨"alpha-data", "u1"⟩ (by decide) rfl).1

/-- C7: after a successful delete, the storage bucket no longer exists
and the registry holds no record for the name. -/
theorem deleteBucket_success_no_orphan (userId name : String) (o : DeleteOracle)
    (s : SysState) (h : (deleteBucketRoute userId name o s).result = DeleteRes.ok) :
    bucketExists name (deleteBucketRoute userId name o s).state = false ∧
    findByName name (deleteBucketRoute userId name o s).state.registry = none := by
  unfold deleteBucketRoute deleteBucketCtrl at h ⊢
  cases hfind : findByName name s.registry with
  | none => simp [hfind] at h
  | some b =>
    by_cases hown : b.userId == userId
    · cases hrm : o.removeBucketOk with
      | false => simp [hfind, hown, hrm] at h
      | true =>
        cases hdb : o.dbDeleteOk with
        | false => simp [hfind, hown, hrm, hdb] at h
        | true =>
          simp only [hfind, hown, hrm, hdb, if_true, if_false, Bool.true_eq]
          constructor
          · simp [bucketExists, stDeleteByName, stRemoveBucket,
                  contains_filter_beq_self]
          · simp [findByName, stDeleteByName, stRemoveBucket, find?_filter_name]
    · simp [hfind, hown] at h

/-- Witness for C7 at a concrete input. -/
theorem deleteBucket_success_no_orphan_witness :
    bucketExists "alpha-data"
        (deleteBucketRoute "u1" "alpha-data" ⟨true, true⟩
          ⟨["alpha-data"], [], [⟨"alpha-data", "u1"⟩]⟩).state = false ∧
    findByName "alpha-data"
        (deleteBucketRoute "u1" "alpha-data" ⟨true, true⟩
          ⟨["alpha-data"], [], [⟨"alpha-data", "u1"⟩]⟩).state.registry = none :=
  deleteBucket_success_no_orphan "u1" "alpha-data" ⟨true, true⟩
    ⟨["alpha-data"], [], [⟨"alpha-data", "u1"⟩]⟩ (by decide)

/-- C10: the DELETE route attaches no validation rules, so the
validation check in `deleteBucket` always passes: for every submitted
name (however invalid under the exported-but-unwired delete rules) the
request never fails with a validation error and proceeds directly to
the registry ownership lookup; the name "x" indeed violates the
exported rules yet is processed. -/
theorem deleteRoute_skips_validation :
    (∀ userId name (o : DeleteOracle) (s : SysState),
      (deleteBucketRoute userId name o s).result ≠ DeleteRes.err DeleteErr.ValidationError ∧
      (deleteBucketRoute userId name o s).trace.head? =
        some (RemoteCall.registryFindByName name)) ∧
    deleteValidationPasses "x" = false := by
  refine ⟨fun userId name o s => ?_, by decide⟩
  unfold deleteBucketRoute deleteBucketCtrl
  cases hfind : findByName name s.registry with
  | none => simp
  | some b =>
    by_cases hown : b.userId == userId
    · cases hrm : o.removeBucketOk with
      | false => simp [hown, hrm]
      | true => cases hdb : o.dbDeleteOk <;> simp [hown, hrm]
    · simp [hown]

/-- Witness for C10 at a concrete invalid name. -/
theorem deleteRoute_skips_validation_witness :
    (deleteBucketRoute "u1" "x" ⟨true, true⟩ ⟨[], [], []⟩).result ≠
      DeleteRes.err DeleteErr.ValidationError :=
  (deleteRoute_skips_validation.1 "u1" "x" ⟨true, true⟩ ⟨[], [], []⟩).1

/-- C5: when the registry already holds a record with the desired name,
create fails with `NameConflict`, the external state is unchanged, and
the only call issued is the registry lookup itself — no identity-store
lookup, no storage creation, set-policy, or bucket-deletion call. -/
theorem createBucket_nameConflict (users : List User) (userId raw : String)
    (o : CreateOracle) (s : SysState) (b : BucketRecord)
    (hv : createValidationPasses raw = true)
    (hfind : findByName (jsTrim raw) s.registry = some b) :
    createBucket users userId raw o s =
      ⟨CreateRes.err CreateErr.NameConflict, s,
       [RemoteCall.registryFindByName (jsTrim raw)]⟩ := by
  unfold createBucket
  simp [hv, hfind]

/-- Witness for C5 at a concrete input: the name is already registered
to another user. -/
theorem createBucket_nameConflict_witness :
    createBucket [] "u2" "abc" ⟨true, true, true, true⟩ ⟨[], [], [⟨"abc", "u1"⟩]⟩ =
      ⟨CreateRes.err CreateErr.NameConflict, ⟨[], [], [⟨"abc", "u1"⟩]⟩,
       [RemoteCall.registryFindByName (jsTrim "abc")]⟩ :=
  createBucket_nameConflict [] "u2" "abc" ⟨true, true, true, true⟩
    ⟨[], [], [⟨"abc", "u1"⟩]⟩ ⟨"abc", "u1"⟩ (by decide) (by decide)

/-- C2: after a successful create, the policy set on the new bucket is
exactly the single-owner document: one statement allowing only the
requesting user's access key the four actions GetObject, PutObject,
DeleteObject, ListBucket on exactly the bucket's ARN and the ARN of its
contents, and nothing else. -/
theorem createBucket_policy_exclusive (users : List User) (userId raw : String)
    (o : CreateOracle) (s : SysState) (r : BucketRecord) (u : User)
    (hok : (createBucket users userId raw o s).result = CreateRes.ok r)
    (hu : findUser userId users = some u) :
    getPolicySt r.name (createBucket users userId raw o s).state =
      some (bucketPolicy u.minioAccessKey r.name) ∧
    bucketPolicy u.minioAccessKey r.name =
      ⟨"2012-10-17",
       [⟨"Allow", [u.minioAccessKey],
         ["s3:GetObject", "s3:PutObject", "s3:DeleteObject", "s3:ListBucket"],
         ["arn:aws:s3:::" ++ r.name, "arn:aws:s3:::" ++ r.name ++ "/*"]⟩]⟩ := by
  unfold createBucket at hok ⊢
  by_cases hv : createValidationPasses raw = true
  · cases hfind : findByName (jsTrim raw) s.registry with
    | some b => simp [hv, hfind] at hok
    | none =>
      cases hmk : o.makeBucketOk with
      | false => simp [hv, hfind, hu, hmk] at hok
      | true =>
        cases hsp : o.setPolicyOk with
        | false => simp [hv, hfind, hu, hmk, hsp] at hok
        | true =>
          cases hins : o.insertOk with
          | false => simp [hv, hfind, hu, hmk, hsp, hins] at hok
          | true =>
            simp only [hv, hfind, hu, hmk, hsp, hins, if_true] at hok ⊢
            simp only [CreateRes.ok.injEq] at hok
            subst hok
            refine ⟨?_, rfl⟩
            simp [getPolicySt, stInsert, stSetPolicy, stMakeBucket, List.find?_cons]
  · simp [hv] at hok

/-- Witness for C2 at a concrete input: a successful create run. -/
theorem createBucket_policy_exclusive_witness :
    getPolicySt (BucketRecord.mk (jsTrim "abc") "u1").name
        (createBucket [⟨"u1", "k1"⟩] "u1" "abc" ⟨true, true, true, true⟩ ⟨[], [], []⟩).state =
      some (bucketPolicy "k1" (BucketRecord.mk (jsTrim "abc") "u1").name) :=
  (createBucket_policy_exclusive [⟨"u1", "k1"⟩] "u1" "abc" ⟨true, true, true, true⟩
    ⟨[], [], []⟩ ⟨jsTrim "abc", "u1"⟩ ⟨"u1", "k1"⟩ (by decide) (by decide)).1

/-- C9: a failed compensating bucket deletion is never escalated: the
result of create does not depend on the compensation's outcome, and on
the two compensated paths the result is the primary error,
`PolicySetFailed` for a set-policy failure and `RegistrationFailed` for
a registry-insert failure. -/
theorem createBucket_comp_failure_not_escalated :
    ∀ (users : List User) (userId raw : String) (s : SysState) (mk sp ins rc rc' : Bool),
      ((createBucket users userId raw ⟨mk, sp, rc, ins⟩ s).result =
        (createBucket users userId raw ⟨mk, sp, rc', ins⟩ s).result) ∧
      (createValidationPasses raw = true →
        findByName (jsTrim raw) s.registry = none →
        ∀ u, findUser userId users = some u →
          (mk = true → sp = false →
            (createBucket users userId raw ⟨mk, sp, rc, ins⟩ s).result =
              CreateRes.err CreateErr.PolicySetFailed) ∧
          (mk = true → sp = true → ins = false →
            (createBucket users userId raw ⟨mk, sp, rc, ins⟩ s).result =
              CreateRes.err CreateErr.RegistrationFailed)) := by
  intro users userId raw s mk sp ins rc rc'
  constructor
  · unfold createBucket
    by_cases hv : createValidationPasses raw = true
    · cases hfind : findByName (jsTrim raw) s.registry with
      | some b => simp [hv, hfind]
      | none =>
        cases hu : findUser userId users with
        | none => simp [hv, hfind, hu]
        | some u => cases mk <;> cases sp <;> cases ins <;> simp [hv, hfind, hu]
    · simp [hv]
  · intro hv hfind u hu
    unfold createBucket
    cases mk <;> cases sp <;> cases ins <;> simp [hv, hfind, hu]

/-- Witness for C9 at a concrete input: a set-policy failure whose
compensation also fails still reports `PolicySetFailed`. -/
theorem createBucket_comp_failure_not_escalated_witness :
    (createBucket [⟨"u1", "k1"⟩] "u1" "abc" ⟨true, false, false, true⟩ ⟨[], [], []⟩).result =
      CreateRes.err CreateErr.PolicySetFailed :=
  ((createBucket_comp_failure_not_escalated [⟨"u1", "k1"⟩] "u1" "abc" ⟨[], [], []⟩
      true false true false false).2 (by decide) (by decide) ⟨"u1", "k1"⟩ (by decide)).1
    rfl rfl

/-- Counterexample to C1 as stated: a create in which the set-policy
step fails and the best-effort compensating deletion also fails returns
`PolicySetFailed`, yet the storage bucket still exists afterwards. -/
theorem createBucket_comp_fail_leaves_bucket :
    (createBucket [⟨"u1", "k1"⟩] "u1" "beta-data" ⟨true, false, false, true⟩
        ⟨[], [], []⟩).result = CreateRes.err CreateErr.PolicySetFailed ∧
    bucketExists "beta-data"
      (createBucket [⟨"u1", "k1"⟩] "u1" "beta-data" ⟨true, false, false, true⟩
        ⟨[], [], []⟩).state = true := by decide

/-- C1 as amended: on a set-policy or registry-insert failure the
operation returns the corresponding error and — whatever the outcome of
the compensating bucket deletion — no registry record for the name
exists afterwards; provided the compensating deletion succeeds, the
storage bucket does not exist either. -/
theorem createBucket_failure_all_absent (users : List User) (userId raw : String)
    (s : SysState) (mk sp rc ins : Bool)
    (h : (createBucket users userId raw ⟨mk, sp, rc, ins⟩ s).result =
           CreateRes.err CreateErr.PolicySetFailed ∨
         (createBucket users userId raw ⟨mk, sp, rc, ins⟩ s).result =
           CreateRes.err CreateErr.RegistrationFailed) :
    findByName (jsTrim raw)
        (createBucket users userId raw ⟨mk, sp, rc, ins⟩ s).state.registry = none ∧
    (rc = true →
      bucketExists (jsTrim raw)
        (createBucket users userId raw ⟨mk, sp, rc, ins⟩ s).state = false) := by
  unfold createBucket at h ⊢
  by_cases hv : createValidationPasses raw = true
  · cases hfind : findByName (jsTrim raw) s.registry with
    | some b => rcases h with h | h <;> simp [hv, hfind] at h
    | none =>
      cases hu : findUser userId users with
      | none => rcases h with h | h <;> simp [hv, hfind, hu] at h
      | some u =>
        cases mk with
        | false => rcases h with h | h <;> simp [hv, hfind, hu] at h
        | true =>
          cases sp with
          | false =>
            constructor
            · cases rc with
              | true => simp [hv, hfind, hu, stRemoveBucket, stMakeBucket]
              | false => simp [hv, hfind, hu, stMakeBucket]
            · intro hrc
              subst hrc
              simp [hv, hfind, hu, bucketExists, stRemoveBucket, stMakeBucket,
                    contains_filter_beq_self]
          | true =>
            cases ins with
            | false =>
              constructor
              · cases rc with
                | true =>
                  simp [hv, hfind, hu, stRemoveBucket, stSetPolicy, stMakeBucket]
                | false =>
                  simp [hv, hfind, hu, stSetPolicy, stMakeBucket]
              · intro hrc
                subst hrc
                simp [hv, hfind, hu, bucketExists, stRemoveBucket, stSetPolicy,
                      stMakeBucket, contains_filter_beq_self]
            | true => rcases h with h | h <;> simp [hv, hfind, hu] at h
  · rcases h with h | h <;> simp [hv] at h

/-- Witness for the amended C1 at concrete inputs: a set-policy failure
whose compensation also fails still leaves no registry record, and the
same failure with a successful compensation leaves no bucket either. -/
theorem createBucket_failure_all_absent_witness :
    findByName (jsTrim "beta-data")
        (createBucket [⟨"u1", "k1"⟩] "u1" "beta-data" ⟨true, false, false, true⟩
          ⟨[], [], []⟩).state.registry = none ∧
    bucketExists (jsTrim "beta-data")
        (createBucket [⟨"u1", "k1"⟩] "u1" "beta-data" ⟨true, false, true, true⟩
          ⟨[], [], []⟩).state = false :=
  ⟨(createBucket_failure_all_absent [⟨"u1", "k1"⟩] "u1" "beta-data" ⟨[], [], []⟩
      true false false true (Or.inl (by decide))).1,
   (createBucket_failure_all_absent [⟨"u1", "k1"⟩] "u1" "beta-data" ⟨[], [], []⟩
      true false true true (Or.inl (by decide))).2 rfl⟩

/-- C3 (evaluation at the failing input): `getBucketPolicy` takes no
requesting-user input at all and performs no ownership check, so for a
bucket owned by user `u1` it hands the full policy document to any
authenticated caller instead of `NotFoundOrNotOwned`. -/
theorem getBucketPolicy_ignores_ownership :
    getBucketPolicy "alpha-data"
        ⟨["alpha-data"], [("alpha-data", bucketPolicy "k1" "alpha-data")],
         [⟨"alpha-data", "u1"⟩]⟩ =
      ⟨PolicyRes.ok (bucketPolicy "k1" "alpha-data"),
       [RemoteCall.storageGetPolicy "alpha-data"]⟩ := by decide

/-- Naming constraint as worded by the claim (C8), over a character
list: 3 to 63 characters drawn from lowercase letters, digits and
hyphens, whose first and last characters are not hyphens. -/
def specNamingConstraintL (l : List Char) : Bool :=
  ((3 ≤ l.length) && (l.length ≤ 63)) &&
  l.all (fun c => isLowerAlnum c || c == '-') &&
  (match l.head? with | some c => !(c == '-') | none => false) &&
  (match l.getLast? with | some c => !(c == '-') | none => false)

/-- Naming constraint as worded by the claim (C8), over strings. -/
def specNamingConstraint (s : String) : Bool :=
  specNamingConstraintL s.data

lemma isLowerAlnum_ne_hyphen {c : Char} (h : isLowerAlnum c = true) :
    (c == '-') = false := by
  by_cases hc : c = '-'
  · subst hc
    exact absurd h (by decide)
  · simpa using hc

lemma nameTail_spec {l : List Char} (h : nameTail l = true) :
    (∀ c ∈ l, (isLowerAlnum c || c == '-') = true) ∧
    (∃ d, l.getLast? = some d ∧ isLowerAlnum d = true) := by
  induction l with
  | nil => exact absurd h (by decide)
  | cons c rest ih =>
    cases rest with
    | nil =>
      have hc : isLowerAlnum c = true := h
      refine ⟨?_, c, rfl, hc⟩
      intro x hx
      have hxc : x = c := by simpa using hx
      subst hxc
      simp [hc]
    | cons c2 rest2 =>
      have h' : ((isLowerAlnum c || c == '-') && nameTail (c2 :: rest2)) = true := h
      rw [Bool.and_eq_true] at h'
      obtain ⟨h1, h2⟩ := h'
      obtain ⟨hall, d, hlast, hd⟩ := ih h2
      refine ⟨?_, d, ?_, hd⟩
      · intro x hx
        rcases List.mem_cons.mp hx with hx | hx
        · subst hx
          exact h1
        · exact hall x hx
      · rw [List.getLast?_cons_cons]
        exact hlast

lemma validNameChars_spec {l : List Char} (h : validNameChars l = true) :
    specNamingConstraintL l = true := by
  unfold validNameChars at h
  rw [Bool.and_eq_true] at h
  obtain ⟨hlen, hre⟩ := h
  rw [Bool.and_eq_true] at hlen
  obtain ⟨h3, h63⟩ := hlen
  cases l with
  | nil => exact absurd hre (by decide)
  | cons c rest =>
    have hre' : (isLowerAlnum c && nameTail rest) = true := hre
    rw [Bool.and_eq_true] at hre'
    obtain ⟨hc, htail⟩ := hre'
    obtain ⟨hall, d, hlast, hd⟩ := nameTail_spec htail
    unfold specNamingConstraintL
    cases rest with
    | nil => exact absurd hlast (by simp)
    | cons c2 rest2 =>
      simp only [Bool.and_eq_true]
      refine ⟨⟨⟨⟨h3, h63⟩, ?_⟩, ?_⟩, ?_⟩
      · refine List.all_eq_true.mpr ?_
        intro x hx
        rcases List.mem_cons.mp hx with hx | hx
        · subst hx
          simp [hc]
        · exact hall x hx
      · simp only [List.head?_cons]
        simp [isLowerAlnum_ne_hyphen hc]
      · rw [List.getLast?_cons_cons, hlast]
        simp [isLowerAlnum_ne_hyphen hd]

/-- Counterexample to C8 as stated: the submitted name "  abc" violates
the naming constraint (it contains spaces), yet the create request
proceeds past validation — all the way to success — because the
`trim()` sanitizer rewrites the value before the checks run. -/
theorem createBucket_accepts_untrimmed :
    specNamingConstraint "  abc" = false ∧
    (createBucket [⟨"u1", "k1"⟩] "u1" "  abc" ⟨true, true, true, true⟩
        ⟨[], [], []⟩).result = CreateRes.ok ⟨"abc", "u1"⟩ := by decide

/-- C8 as amended: a create request proceeds past validation only if
the trimmed submitted name satisfies the naming constraint (3-63
characters, lowercase letters, digits and hyphens, first and last
characters not hyphens); the provisioning pipeline then runs with the
trimmed name. -/
theorem createBucket_past_validation_trimmed (users : List User)
    (userId raw : String) (o : CreateOracle) (s : SysState)
    (h : (createBucket users userId raw o s).result ≠
           CreateRes.err CreateErr.ValidationError) :
    specNamingConstraint (jsTrim raw) = true := by
  by_cases hv : createValidationPasses raw = true
  · exact validNameChars_spec hv
  · exfalso
    apply h
    unfold createBucket
    simp [hv]

/-- Witness for the amended C8 at a concrete input. -/
theorem createBucket_past_validation_trimmed_witness :
    specNamingConstraint (jsTrim "abc") = true :=
  createBucket_past_validation_trimmed [⟨"u1", "k1"⟩] "u1" "abc"
    ⟨true, true, true, true⟩ ⟨[], [], []⟩ (by decide)
